import Mathlib

/-!
# Verification of the peeple-queue WebSocket core

A shallow embedding, in Lean 4, of the WebSocket handshake negotiator
(`wsHandler`), frame decoder (`readFrame`) and frame encoder (`sendFrame`)
of the Go sources, together with theorems settling the specification's
claims about them.

Bytes are modelled as `Nat` (values < 256 on real streams); the byte
stream is a `List Nat` consumed from the front; machine-integer
truncation is written out as `% 2^w` where the Go code narrows.
Fallible operations return `Except`.
-/

/-! ## SHA-1 (as used by Go's `crypto/sha1` on the handshake key)

32-bit words are `Nat` values kept `< 2^32` by explicit `% 4294967296`
reductions exactly where the Go `uint32` arithmetic wraps. -/

/-- Rotate a 32-bit word (a `Nat` < 2^32) left by `n` bits. -/
def rotl32 (n x : Nat) : Nat :=
  ((x <<< n) % 4294967296) ||| (x >>> (32 - n))

/-- Big-endian 32-bit words from a byte list (groups of 4; a trailing
shorter group is dropped, which never happens on padded input). -/
def toWords : List Nat → List Nat
  | b0 :: b1 :: b2 :: b3 :: rest =>
      (b0 * 16777216 + b1 * 65536 + b2 * 256 + b3) :: toWords rest
  | _ => []

/-- Extend the 16 message-schedule words to 80:
`w[t] = rotl1 (w[t-3] xor w[t-8] xor w[t-14] xor w[t-16])`. -/
def extendW : Nat → List Nat → List Nat
  | 0, ws => ws
  | f + 1, ws =>
      let n := ws.length
      extendW f (ws ++ [rotl32 1 ((ws.getD (n - 3) 0) ^^^ (ws.getD (n - 8) 0) ^^^
        (ws.getD (n - 14) 0) ^^^ (ws.getD (n - 16) 0))])

/-- SHA-1 round function `f_t`. -/
def sha1F (t b c d : Nat) : Nat :=
  if t < 20 then (b &&& c) ||| ((b ^^^ 4294967295) &&& d)
  else if t < 40 then b ^^^ c ^^^ d
  else if t < 60 then (b &&& c) ||| (b &&& d) ||| (c &&& d)
  else b ^^^ c ^^^ d

/-- SHA-1 round constant `K_t`. -/
def sha1K (t : Nat) : Nat :=
  if t < 20 then 0x5A827999
  else if t < 40 then 0x6ED9EBA1
  else if t < 60 then 0x8F1BBCDC
  else 0xCA62C1D6

/-- The five 32-bit working registers of SHA-1. -/
structure SHAState where
  a : Nat
  b : Nat
  c : Nat
  d : Nat
  e : Nat
deriving Repr, DecidableEq

/-- SHA-1 initial hash value. -/
def sha1Init : SHAState :=
  ⟨0x67452301, 0xEFCDAB89, 0x98BADCFE, 0x10325476, 0xC3D2E1F0⟩

/-- The 80 SHA-1 rounds over the scheduled words, `t` counting from 0. -/
def sha1Rounds : List Nat → Nat → SHAState → SHAState
  | [], _, st => st
  | w :: ws, t, st =>
      let tmp := (rotl32 5 st.a + sha1F t st.b st.c st.d + st.e + sha1K t + w) % 4294967296
      sha1Rounds ws (t + 1) ⟨tmp, st.a, rotl32 30 st.b, st.c, st.d⟩

/-- One 64-byte block: schedule, 80 rounds, add back into the state. -/
def processBlock (st : SHAState) (block : List Nat) : SHAState :=
  let r := sha1Rounds (extendW 64 (toWords block)) 0 st
  ⟨(st.a + r.a) % 4294967296, (st.b + r.b) % 4294967296,
   (st.c + r.c) % 4294967296, (st.d + r.d) % 4294967296,
   (st.e + r.e) % 4294967296⟩

/-- Split a byte list into 64-byte chunks (fuel-driven so that it
reduces in the kernel; the fuel `l.length` is always enough). -/
def chunksAux : Nat → List Nat → List (List Nat)
  | 0, _ => []
  | _, [] => []
  | f + 1, l => l.take 64 :: chunksAux f (l.drop 64)

/-- Merkle–Damgård padding: `0x80`, zeros to 56 mod 64, then the
bit length as a 64-bit big-endian integer. -/
def sha1Pad (m : List Nat) : List Nat :=
  let l := m.length
  m ++ [128] ++ List.replicate ((119 - (l % 64)) % 64) 0 ++
    (List.range 8).map (fun i => (8 * l) / 2 ^ (8 * (7 - i)) % 256)

/-- SHA-1 digest (20 bytes) of a byte list. -/
def sha1Bytes (m : List Nat) : List Nat :=
  let padded := sha1Pad m
  let st := (chunksAux padded.length padded).foldl processBlock sha1Init
  ([st.a, st.b, st.c, st.d, st.e].map
    (fun w => [w / 16777216 % 256, w / 65536 % 256, w / 256 % 256, w % 256])).flatten

/-! ## Base64 (standard alphabet with `=` padding, Go `encoding/base64`) -/

/-- The standard base64 alphabet. -/
def b64Alphabet : List Char :=
  "ABCDEFGHIJKLMNOPQRSTUVWXYZabcdefghijklmnopqrstuvwxyz0123456789+/".data

/-- The base64 character for a 6-bit value. -/
def b64c (n : Nat) : Char := b64Alphabet.getD n 'A'

/-- Standard base64 encoding of a byte list. -/
def base64Encode : List Nat → List Char
  | [] => []
  | [b0] => [b64c (b0 / 4), b64c (b0 % 4 * 16), '=', '=']
  | [b0, b1] => [b64c (b0 / 4), b64c (b0 % 4 * 16 + b1 / 16), b64c (b1 % 16 * 4), '=']
  | b0 :: b1 :: b2 :: rest =>
      b64c (b0 / 4) :: b64c (b0 % 4 * 16 + b1 / 16) ::
      b64c (b1 % 16 * 4 + b2 / 64) :: b64c (b2 % 64) :: base64Encode rest

/-! ## Handshake negotiator (`wsHandler`, header validation part)

Go's `Header.Get` yields `""` for an absent header, so an absent field is
the empty string. All handshake strings are ASCII, so a string's bytes
are its characters' code points. -/

/-- The bytes of an (ASCII) string, as Go sees them. -/
def strBytes (s : String) : List Nat := s.data.map Char.toNat

/-- The fixed WebSocket magic GUID appended to the client nonce. -/
def magicGUID : String := "258EAFA5-E914-47DA-95CA-C5AB0DC85B11"

/-- `Sec-WebSocket-Accept` value: `base64(SHA1(key ++ magicGUID))`,
exactly as `wsHandler` computes it. A pure function of the nonce. -/
def computeAccept (key : String) : String :=
  String.mk (base64Encode (sha1Bytes (strBytes (key ++ magicGUID))))

/-- Outcome of the handshake negotiation: an HTTP-style rejection, or an
acceptance carrying the status and the accept token. Stream ownership
(the hijack) only ever follows an `accept`. -/
inductive HandshakeResult where
  | reject (status : Nat)
  | accept (status : Nat) (token : String)
deriving Repr, DecidableEq

/-- The HTTP status of a handshake outcome. -/
def HandshakeResult.status : HandshakeResult → Nat
  | .reject s => s
  | .accept s _ => s

/-- Whether the outcome transfers ownership of the underlying stream to
the connection driver (`wsHandler` hijacks only after accepting). -/
def HandshakeResult.transfersStream : HandshakeResult → Bool
  | .reject _ => false
  | .accept _ _ => true

/-- The header validation of `wsHandler`: case-sensitive equality on the
Upgrade/Connection headers, then the version literal, then acceptance.
The Go code performs no check on the `Sec-WebSocket-Key` header. -/
def wsNegotiate (upgrade conn version key : String) : HandshakeResult :=
  if upgrade ≠ "websocket" ∨ conn ≠ "Upgrade" then .reject 400
  else if version ≠ "13" then .reject 400
  else .accept 101 (computeAccept key)

/-! ## Frame decoder and encoder (`readFrame`, `sendFrame`)

The stream is a `List Nat` of bytes consumed from the front. `readFull`
models Go's `io.ReadFull`: it yields `io.EOF` when the stream supplies
zero of the requested bytes and `io.ErrUnexpectedEOF` when it supplies
some but not all; `readFrame` propagates these errors unchanged, and its
own two failures are the `fmt.Errorf` cases of the Go code. -/

/-- Errors a frame read or write can produce. `eof` is Go's `io.EOF`,
`unexpectedEnd` is `io.ErrUnexpectedEOF`, `unsupportedLength` is
"large payloads not supported" / "payload too large", and
`unsupportedFrameType` is "unsupported frame type". -/
inductive ReadErr where
  | eof
  | unexpectedEnd
  | unsupportedLength
  | unsupportedFrameType
deriving Repr, DecidableEq

/-- `io.ReadFull conn buf` on a `List Nat` stream: `n` requested bytes,
returning the bytes and the remaining stream. With fewer than `n` bytes
available it fails: `io.EOF` when zero bytes were read, otherwise
`io.ErrUnexpectedEOF`. -/
def readFull (n : Nat) (s : List Nat) : Except ReadErr (List Nat × List Nat) :=
  if n ≤ s.length then .ok (s.take n, s.drop n)
  else if s.length = 0 then .error .eof
  else .error .unexpectedEnd

/-- The in-place unmasking loop `payload[i] ^= maskingKey[i%4]`, started
at index `i`. -/
def maskFrom (key : List Nat) (i : Nat) : List Nat → List Nat
  | [] => []
  | b :: bs => (b ^^^ key.getD (i % 4) 0) :: maskFrom key (i + 1) bs

/-- XOR (un)masking of a payload with a 4-byte key, from index 0. -/
def maskBytes (key : List Nat) (p : List Nat) : List Nat := maskFrom key 0 p

/-- The `switch payloadLen` of `readFrame`: base length 126 reads a
2-byte big-endian extended length, 127 fails, anything else is the
length itself. -/
def parseLen (len0 : Nat) (s : List Nat) : Except ReadErr (Nat × List Nat) :=
  if len0 = 126 then
    match readFull 2 s with
    | .error e => .error e
    | .ok (lb, s1) => .ok (lb.getD 0 0 * 256 + lb.getD 1 0, s1)
  else if len0 = 127 then .error .unsupportedLength
  else .ok (len0, s)

/-- The masking-key read of `readFrame`: 4 bytes when the mask bit is
set, else the zero-filled `make([]byte, 4)` untouched. -/
def parseMaskKey (mask : Nat) (s : List Nat) : Except ReadErr (List Nat × List Nat) :=
  if mask = 1 then readFull 4 s else .ok ([0, 0, 0, 0], s)

/-- Frame assembly: everything `readFrame` does before its final
opcode/FIN check. Returns `((fin, opcode), payload, remaining stream)`.
`fin = header[0] >> 7`, `opcode = header[0] & 0x0F`,
`mask = header[1] >> 7`, base length `header[1] & 0x7F`. -/
def parseFrame (s : List Nat) : Except ReadErr ((Nat × Nat) × List Nat × List Nat) :=
  match readFull 2 s with
  | .error e => .error e
  | .ok (header, s1) =>
    let h0 := header.getD 0 0
    let h1 := header.getD 1 0
    match parseLen (h1 &&& 127) s1 with
    | .error e => .error e
    | .ok (payloadLen, s2) =>
      match parseMaskKey (h1 >>> 7) s2 with
      | .error e => .error e
      | .ok (key, s3) =>
        match readFull payloadLen s3 with
        | .error e => .error e
        | .ok (payload, s4) =>
          .ok ((h0 >>> 7, h0 &&& 15),
               (if h1 >>> 7 = 1 then maskBytes key payload else payload), s4)

/-- `readFrame`: assemble one frame, then enforce
`opcode != 0x01 || fin != 1 → "unsupported frame type"`; on success
return the payload bytes and the rest of the stream. -/
def readFrame (s : List Nat) : Except ReadErr (List Nat × List Nat) :=
  match parseFrame s with
  | .error e => .error e
  | .ok ((fin, opcode), payload, rest) =>
    if opcode ≠ 1 ∨ fin ≠ 1 then .error .unsupportedFrameType
    else .ok (payload, rest)

/-- `sendFrame`: serialize an outbound text frame. Header byte `0x81`
(FIN + text); a payload of ≤ 125 bytes puts its length in byte 1; up to
65535 bytes uses `126` plus a big-endian `uint16` (each emitted byte
narrowed `% 256` as Go's `byte(...)` does); longer fails. -/
def sendFrame (payload : List Nat) : Except ReadErr (List Nat) :=
  if payload.length ≤ 125 then
    .ok (129 :: payload.length :: payload)
  else if payload.length ≤ 65535 then
    .ok (129 :: 126 :: ((payload.length >>> 8) % 256) :: (payload.length % 256) :: payload)
  else .error .unsupportedLength

/-! ## Connection driver (the read loop of `wsHandler`) -/

/-- Whether the driver treats a read failure as a clean peer close: the
Go loop logs "Read error" for every error except `io.EOF` and returns
(closing the connection) in either case. -/
def isCleanClose (e : ReadErr) : Bool :=
  match e with
  | .eof => true
  | _ => false

/-- One step of the `wsHandler` loop: decode a frame, echo it. Every
error path ends with the connection closed (`defer conn.Close()`);
`closedClean` is the silent `io.EOF` path, `closedError` the logged one,
`closedWrite` a failed echo. -/
inductive StepResult where
  | echoed (wire : List Nat) (rest : List Nat)
  | closedClean
  | closedError (e : ReadErr)
  | closedWrite
deriving Repr, DecidableEq

/-- One iteration of the driver loop on the current stream contents. -/
def driverStep (s : List Nat) : StepResult :=
  match readFrame s with
  | .error e => if isCleanClose e then .closedClean else .closedError e
  | .ok (p, rest) =>
    match sendFrame p with
    | .error _ => .closedWrite
    | .ok wire => .echoed wire rest

example : readFrame [129, 5, 104, 101, 108, 108, 111] = .ok ([104, 101, 108, 108, 111], []) := by rfl
example : sendFrame [104, 101, 108, 108, 111] = .ok [129, 5, 104, 101, 108, 108, 111] := by rfl
example : readFrame [129, 126, 0, 3, 7, 8, 9] = .ok ([7, 8, 9], []) := by rfl
example : readFrame [129, 255] = .error .unsupportedLength := by rfl
example : readFrame [129] = .error .unexpectedEnd := by rfl
example : readFrame [] = .error .eof := by rfl
example : readFrame [129, 5] = .error .eof := by rfl
example : readFrame [1, 0] = .error .unsupportedFrameType := by rfl
example : readFrame [129, 133, 1, 2, 3, 4, 105, 103, 111, 104, 110] =
    .ok ([104, 101, 108, 108, 111], []) := by rfl

/-! ## Helper lemmas -/

theorem readFull_two (a b : Nat) (s : List Nat) : readFull 2 (a :: b :: s) = .ok ([a, b], s) := by
  simp [readFull]

theorem readFull_exact (s : List Nat) : readFull s.length s = .ok (s, []) := by
  simp [readFull]

theorem readFull_append (p rest : List Nat) : readFull p.length (p ++ rest) = .ok (p, rest) := by
  simp [readFull, List.take_left, List.drop_left]

theorem readFull_nil_eof (n : Nat) (hn : 0 < n) : readFull n [] = .error .eof := by
  unfold readFull
  rw [if_neg (by simp; omega)]
  simp

theorem readFull_short (n : Nat) (s : List Nat) (h0 : 0 < s.length) (h : s.length < n) :
    readFull n s = .error .unexpectedEnd := by
  unfold readFull
  rw [if_neg (by omega), if_neg (by omega)]

theorem and127_of_lt (n : Nat) (h : n < 128) : n &&& 127 = n := by
  have h2 : (127 : Nat) = 2 ^ 7 - 1 := by norm_num
  rw [h2, Nat.and_pow_two_sub_one_eq_mod, Nat.mod_eq_of_lt (by norm_num; omega)]

theorem shiftRight7_of_lt (n : Nat) (h : n < 128) : n >>> 7 = 0 := by
  rw [Nat.shiftRight_eq_div_pow]
  exact Nat.div_eq_of_lt (by norm_num; omega)

theorem byte129_and15 : (129 : Nat) &&& 15 = 1 := by decide

theorem byte129_shift7 : (129 : Nat) >>> 7 = 1 := by decide

theorem maskFrom_maskFrom (key : List Nat) (p : List Nat) :
    ∀ i : Nat, maskFrom key i (maskFrom key i p) = p := by
  induction p with
  | nil => intro i; rfl
  | cons b bs ih =>
      intro i
      simp [maskFrom, ih, Nat.xor_assoc, Nat.xor_self, Nat.xor_zero]

/-! ## Claim theorems -/

/-- C3: for every payload byte sequence `P` and every 4-byte key `K`, the
XOR unmasking loop `payload[i] ^= key[i mod 4]` of `readFrame` is an
involution: applying it twice with the same key restores `P`. -/
theorem unmask_mask_involution (p key : List Nat) (hkey : key.length = 4) :
    maskBytes key (maskBytes key p) = p :=
  maskFrom_maskFrom key p 0

/-- Witness for C3 at payload "hello" and key `[1, 2, 3, 4]`. -/
theorem unmask_mask_involution_witness :
    ([1, 2, 3, 4] : List Nat).length = 4 ∧
    maskBytes [1, 2, 3, 4] (maskBytes [1, 2, 3, 4] [104, 101, 108, 108, 111]) =
      [104, 101, 108, 108, 111] :=
  ⟨by decide, unmask_mask_involution [104, 101, 108, 108, 111] [1, 2, 3, 4] (by decide)⟩

/-- C6: `sendFrame` emits first byte `0x81` (FIN=1, opcode=text) with the
mask bit of the second byte 0. A payload of length ≤ 125 encodes its
length directly in byte 1 with no extended-length field (2 + length
bytes in all); a length in 126..65535 encodes byte 1 = 126 followed by a
2-byte big-endian extended length equal to the payload length. -/
theorem sendFrame_wire_format (p : List Nat) :
    (p.length ≤ 125 →
      sendFrame p = .ok (129 :: p.length :: p) ∧
      (129 :: p.length :: p).length = 2 + p.length ∧
      p.length >>> 7 = 0) ∧
    (126 ≤ p.length → p.length ≤ 65535 →
      sendFrame p = .ok (129 :: 126 :: ((p.length >>> 8) % 256) :: (p.length % 256) :: p) ∧
      ((p.length >>> 8) % 256) * 256 + p.length % 256 = p.length ∧
      (126 : Nat) >>> 7 = 0) := by
  constructor
  · intro h
    refine ⟨by simp [sendFrame, h], by simp +arith, shiftRight7_of_lt _ (by omega)⟩
  · intro h1 h2
    refine ⟨?_, ?_, ?_⟩
    · simp [sendFrame, show ¬ p.length ≤ 125 by omega, h2]
    · have hdiv : p.length >>> 8 = p.length / 256 := by
        rw [Nat.shiftRight_eq_div_pow]
      rw [hdiv, Nat.mod_eq_of_lt (by omega)]
      omega
    · decide

/-- Witness for C6: payloads of exactly 125 and exactly 126 bytes. -/
theorem sendFrame_wire_format_witness :
    sendFrame (List.replicate 125 7) = .ok (129 :: 125 :: List.replicate 125 7) ∧
    sendFrame (List.replicate 126 7) = .ok (129 :: 126 :: 0 :: 126 :: List.replicate 126 7) := by
  constructor
  · have h := ((sendFrame_wire_format (List.replicate 125 7)).1 (by simp)).1
    rw [List.length_replicate] at h
    exact h
  · have h := ((sendFrame_wire_format (List.replicate 126 7)).2 (by simp) (by simp)).1
    have e1 : ((126 : Nat) >>> 8) % 256 = 0 := by decide
    have e2 : (126 : Nat) % 256 = 126 := by decide
    rw [List.length_replicate, e1, e2] at h
    exact h

/-- C5: a frame whose 7-bit base length field is 127 fails decoding with
`unsupportedLength` whatever bytes (if any) follow the 2-byte header, so
no extended-length bytes are read; an encode of a payload longer than
65535 bytes fails with the same error; both are ordinary error returns
(the driver reaches its Closed state, no unrecoverable fault). -/
theorem unsupported_length_paths :
    (∀ h0 h1 rest, h1 &&& 127 = 127 →
      readFrame (h0 :: h1 :: rest) = .error .unsupportedLength ∧
      driverStep (h0 :: h1 :: rest) = .closedError .unsupportedLength) ∧
    (∀ p : List Nat, 65535 < p.length → sendFrame p = .error .unsupportedLength) := by
  constructor
  · intro h0 h1 rest h
    have hp : parseFrame (h0 :: h1 :: rest) = .error .unsupportedLength := by
      simp [parseFrame, readFull_two, parseLen, h]
    constructor
    · simp [readFrame, hp]
    · simp [driverStep, readFrame, hp, isCleanClose]
  · intro p h
    simp [sendFrame, show ¬ p.length ≤ 125 by omega, show ¬ p.length ≤ 65535 by omega]

/-- Witness for C5: base length 127 with an empty remainder (so no
further bytes could even be read), and a 65536-byte payload. -/
theorem unsupported_length_paths_witness :
    readFrame [129, 127] = .error .unsupportedLength ∧
    sendFrame (List.replicate 65536 0) = .error .unsupportedLength :=
  ⟨(unsupported_length_paths.1 129 127 [] (by decide)).1,
   unsupported_length_paths.2 (List.replicate 65536 0) (by rw [List.length_replicate]; omega)⟩

/-- C4: encoding any payload of at most 65535 bytes as an unmasked text
frame with `sendFrame` and decoding the produced wire bytes with
`readFrame` yields the original payload, with the stream fully
consumed. -/
theorem encode_decode_roundtrip (p : List Nat) (h : p.length ≤ 65535) :
    ∃ w, sendFrame p = .ok w ∧ readFrame w = .ok (p, []) := by
  by_cases hs : p.length ≤ 125
  · refine ⟨129 :: p.length :: p, by simp [sendFrame, hs], ?_⟩
    have hand : p.length &&& 127 = p.length := and127_of_lt _ (by omega)
    have hshift : p.length >>> 7 = 0 := shiftRight7_of_lt _ (by omega)
    have hp : parseFrame (129 :: p.length :: p) = .ok ((1, 1), p, []) := by
      simp [parseFrame, readFull_two, parseLen, parseMaskKey, hand, hshift,
        show p.length ≠ 126 by omega, show p.length ≠ 127 by omega, readFull_exact,
        byte129_and15, byte129_shift7]
    simp [readFrame, hp]
  · refine ⟨129 :: 126 :: ((p.length >>> 8) % 256) :: (p.length % 256) :: p,
      by simp [sendFrame, hs, h], ?_⟩
    have hval : ((p.length >>> 8) % 256) * 256 + p.length % 256 = p.length := by
      have hdiv : p.length >>> 8 = p.length / 256 := by rw [Nat.shiftRight_eq_div_pow]
      rw [hdiv, Nat.mod_eq_of_lt (by omega)]
      omega
    have h126 : (126 : Nat) &&& 127 = 126 := by decide
    have h126s : (126 : Nat) >>> 7 = 0 := by decide
    have hp : parseFrame
        (129 :: 126 :: ((p.length >>> 8) % 256) :: (p.length % 256) :: p) =
        .ok ((1, 1), p, []) := by
      simp [parseFrame, readFull_two, parseLen, parseMaskKey, h126, h126s, hval,
        readFull_exact, byte129_and15, byte129_shift7]
    simp [readFrame, hp]

/-- Witness for C4 at the payload "hello". -/
theorem encode_decode_roundtrip_witness :
    ([104, 101, 108, 108, 111] : List Nat).length ≤ 65535 ∧
    ∃ w, sendFrame [104, 101, 108, 108, 111] = .ok w ∧
      readFrame w = .ok ([104, 101, 108, 108, 111], []) :=
  ⟨by decide, encode_decode_roundtrip [104, 101, 108, 108, 111] (by decide)⟩

/-- C10: the decoder accepts non-minimal length encodings: a frame with
base length 126 whose 2-byte big-endian extended length holds any value
below 126 (0 included) decodes successfully, using the extended value as
the payload length and consuming exactly that many payload bytes. -/
theorem nonminimal_ext_len (hi lo : Nat) (p rest : List Nat)
    (hv : hi * 256 + lo < 126) (hp : p.length = hi * 256 + lo) :
    readFrame (129 :: 126 :: hi :: lo :: (p ++ rest)) = .ok (p, rest) := by
  have h126 : (126 : Nat) &&& 127 = 126 := by decide
  have h126s : (126 : Nat) >>> 7 = 0 := by decide
  have hread : readFull (hi * 256 + lo) (p ++ rest) = .ok (p, rest) := by
    rw [← hp]
    exact readFull_append p rest
  have hparse : parseFrame (129 :: 126 :: hi :: lo :: (p ++ rest)) = .ok ((1, 1), p, rest) := by
    simp [parseFrame, readFull_two, parseLen, parseMaskKey, h126, h126s, hread,
      byte129_and15, byte129_shift7]
  simp [readFrame, hparse]

/-- Witness for C10: extended length 0 (value 0 < 126), empty payload. -/
theorem nonminimal_ext_len_witness :
    0 * 256 + 0 < 126 ∧ readFrame [129, 126, 0, 0] = .ok ([], []) :=
  ⟨by decide, nonminimal_ext_len 0 0 [] [] (by decide) (by decide)⟩

/-- C9: the decoder ignores the three RSV bits of the first header byte:
two first-header-bytes with the same top bit (FIN) and the same low four
bits (opcode) — hence differing only in bits 4..6 — give identical
decoding results on every stream; in particular a frame with all three
RSV bits set (first byte `0xF1`) is accepted when FIN=1 and
opcode=text. -/
theorem rsv_bits_ignored :
    (∀ b bx rest, b >>> 7 = bx >>> 7 → b &&& 15 = bx &&& 15 →
      readFrame (b :: rest) = readFrame (bx :: rest)) ∧
    readFrame [241, 0] = .ok ([], []) := by
  constructor
  · intro b bx rest h7 h15
    cases rest with
    | nil => simp [readFrame, parseFrame, readFull]
    | cons c cs =>
        simp only [readFrame, parseFrame, readFull_two, List.getD_cons_zero,
          List.getD_cons_succ]
        rw [h7, h15]
  · rfl

/-- Witness for C9: first bytes `0x81` and `0xF1` (RSV=111) decode
identically on the stream `[0]`. -/
theorem rsv_bits_ignored_witness :
    (129 : Nat) >>> 7 = (241 : Nat) >>> 7 ∧ (129 : Nat) &&& 15 = (241 : Nat) &&& 15 ∧
    readFrame [129, 0] = readFrame [241, 0] :=
  ⟨by decide, by decide, rsv_bits_ignored.1 129 241 [0] (by decide) (by decide)⟩

/-! ## Error-taxonomy lemmas: frame assembly never produces the
frame-type error, which therefore arises only from the final check. -/

theorem readFull_error (n : Nat) (s : List Nat) (e : ReadErr)
    (h : readFull n s = .error e) : e = .eof ∨ e = .unexpectedEnd := by
  unfold readFull at h
  split at h
  · simp at h
  · split at h
    · simp at h
      exact Or.inl h.symm
    · simp at h
      exact Or.inr h.symm

theorem parseLen_error (l : Nat) (s : List Nat) (e : ReadErr)
    (h : parseLen l s = .error e) : e ≠ .unsupportedFrameType := by
  unfold parseLen at h
  split at h
  · split at h
    next e1 heq =>
      simp at h
      rcases readFull_error 2 s e1 heq with h1 | h1 <;> simp [← h, h1]
    next => simp at h
  · split at h
    · simp at h
      simp [← h]
    · simp at h

theorem parseMaskKey_error (m : Nat) (s : List Nat) (e : ReadErr)
    (h : parseMaskKey m s = .error e) : e ≠ .unsupportedFrameType := by
  unfold parseMaskKey at h
  split at h
  · rcases readFull_error 4 s e h with h1 | h1 <;> simp [h1]
  · simp at h

theorem parseFrame_error (s : List Nat) (e : ReadErr)
    (h : parseFrame s = .error e) : e ≠ .unsupportedFrameType := by
  unfold parseFrame at h
  split at h
  next e1 heq =>
    simp at h
    rcases readFull_error 2 s e1 heq with h1 | h1 <;> simp [← h, h1]
  next header s1 heq =>
    dsimp only at h
    split at h
    next e1 heq1 =>
      simp at h
      exact h ▸ parseLen_error _ _ _ heq1
    next heq1 =>
      split at h
      next e1 heq2 =>
        simp at h
        exact h ▸ parseMaskKey_error _ _ _ heq2
      next heq2 =>
        split at h
        next e1 heq3 =>
          simp at h
          rcases readFull_error _ _ e1 heq3 with h1 | h1 <;> simp [← h, h1]
        next => simp at h

/-- C7: a fully assembled frame whose FIN bit is 0 or whose opcode is
not text makes `readFrame` fail with `unsupportedFrameType` (and the
driver close the connection with that error); conversely
`unsupportedFrameType` arises only from a frame whose assembly — header,
any extended length, any masking key and the whole payload — succeeded,
so the check runs only after full assembly. -/
theorem frame_type_check_after_assembly :
    (∀ s fo payload rest, parseFrame s = .ok (fo, payload, rest) →
      (fo.2 ≠ 1 ∨ fo.1 ≠ 1) →
      readFrame s = .error .unsupportedFrameType ∧
      driverStep s = .closedError .unsupportedFrameType) ∧
    (∀ s, readFrame s = .error .unsupportedFrameType →
      ∃ fo payload rest, parseFrame s = .ok (fo, payload, rest) ∧
        (fo.2 ≠ 1 ∨ fo.1 ≠ 1)) := by
  constructor
  · intro s fo payload rest hp hbad
    obtain ⟨fin, op⟩ := fo
    have hr : readFrame s = .error .unsupportedFrameType := by
      simp only [readFrame, hp]
      rw [if_pos hbad]
    exact ⟨hr, by simp [driverStep, hr, isCleanClose]⟩
  · intro s h
    cases heq : parseFrame s with
    | error e =>
        have hr : readFrame s = .error e := by simp [readFrame, heq]
        rw [hr] at h
        simp at h
        exact absurd h (parseFrame_error s e heq)
    | ok v =>
        obtain ⟨⟨fin, op⟩, payload, rest⟩ := v
        by_cases hc : (op ≠ 1 ∨ fin ≠ 1)
        · exact ⟨(fin, op), payload, rest, rfl, hc⟩
        · have hr : readFrame s = .ok (payload, rest) := by
            simp only [readFrame, heq]
            rw [if_neg hc]
          rw [hr] at h
          simp at h

/-- Witness for C7: the frame `[0x01, 0x00]` (FIN=0, opcode=text, empty
payload) assembles fully and then fails the final check. -/
theorem frame_type_check_after_assembly_witness :
    readFrame [1, 0] = .error .unsupportedFrameType ∧
    driverStep [1, 0] = .closedError .unsupportedFrameType :=
  frame_type_check_after_assembly.1 [1, 0] (0, 1) [] [] (by rfl) (Or.inr (by decide))

/-- C8 counterexample: the stream `[0x81, 0x05]` ends two bytes into a
frame (the header was read, the 5-byte payload is absent entirely), yet
`readFrame` returns `io.EOF` and the driver treats it as a clean peer
close — not as a hard error, contradicting "hard error at any later
point inside the frame". -/
theorem mid_frame_eof_clean_close :
    readFrame [129, 5] = .error .eof ∧
    isCleanClose .eof = true ∧
    driverStep [129, 5] = .closedClean ∧
    ([129, 5] : List Nat) ≠ [] :=
  ⟨rfl, rfl, rfl, by decide⟩

/-- C8 (amended): when the byte stream ends during a frame read, the
decoder fails with `io.EOF` exactly when the read during which the
stream ended consumed zero bytes — at the very start of a frame but also
at any later read boundary, e.g. right after the header — and with
`unexpectedEnd` when the stream ends partway through one of its reads;
the driver treats precisely the `io.EOF` failures as clean peer closes
and the rest as hard errors. -/
theorem stream_end_classification :
    (readFrame [] = .error .eof ∧ driverStep [] = .closedClean) ∧
    (∀ b, readFrame [b] = .error .unexpectedEnd ∧
      driverStep [b] = .closedError .unexpectedEnd) ∧
    (∀ h0 h1, h1 &&& 127 ≠ 126 → h1 &&& 127 ≠ 127 → h1 >>> 7 = 0 →
      0 < h1 &&& 127 →
      readFrame [h0, h1] = .error .eof ∧ driverStep [h0, h1] = .closedClean) ∧
    (∀ h0 h1 p, h1 &&& 127 ≠ 126 → h1 &&& 127 ≠ 127 → h1 >>> 7 = 0 →
      0 < p.length → p.length < h1 &&& 127 →
      readFrame (h0 :: h1 :: p) = .error .unexpectedEnd ∧
      driverStep (h0 :: h1 :: p) = .closedError .unexpectedEnd) ∧
    (∀ e, isCleanClose e = true ↔ e = .eof) := by
  refine ⟨⟨rfl, rfl⟩, ?_, ?_, ?_, ?_⟩
  · intro b
    have hp : parseFrame [b] = .error .unexpectedEnd := by
      simp [parseFrame, readFull]
    exact ⟨by simp [readFrame, hp], by simp [driverStep, readFrame, hp, isCleanClose]⟩
  · intro h0 h1 h126 h127 hm hpos
    have hp : parseFrame [h0, h1] = .error .eof := by
      simp [parseFrame, readFull_two, parseLen, parseMaskKey, h126, h127, hm,
        readFull_nil_eof _ hpos]
    exact ⟨by simp [readFrame, hp], by simp [driverStep, readFrame, hp, isCleanClose]⟩
  · intro h0 h1 p h126 h127 hm hp0 hlt
    have hp : parseFrame (h0 :: h1 :: p) = .error .unexpectedEnd := by
      simp [parseFrame, readFull_two, parseLen, parseMaskKey, h126, h127, hm,
        readFull_short _ _ hp0 hlt]
    exact ⟨by simp [readFrame, hp], by simp [driverStep, readFrame, hp, isCleanClose]⟩
  · intro e
    cases e <;> simp [isCleanClose]

/-- Witness for C8 (amended): a lone header byte is a hard error; a
5-byte-payload header followed by nothing is a clean close; a
5-byte-payload header followed by two bytes is a hard error. -/
theorem stream_end_classification_witness :
    (readFrame [129] = .error .unexpectedEnd ∧
      driverStep [129] = .closedError .unexpectedEnd) ∧
    (readFrame [129, 5] = .error .eof ∧ driverStep [129, 5] = .closedClean) ∧
    (readFrame [129, 5, 10, 11] = .error .unexpectedEnd ∧
      driverStep [129, 5, 10, 11] = .closedError .unexpectedEnd) :=
  ⟨stream_end_classification.2.1 129,
   stream_end_classification.2.2.1 129 5 (by decide) (by decide) (by decide) (by decide),
   stream_end_classification.2.2.2.1 129 5 [10, 11] (by decide) (by decide) (by decide)
     (by decide) (by decide)⟩

/-- C1 counterexample: a handshake with valid Upgrade/Connection/version
headers but an absent (empty) client nonce is NOT rejected with 400 —
`wsHandler` never checks the `Sec-WebSocket-Key` header — it is accepted
with status 101 and the stream is handed over. -/
theorem empty_nonce_accepted :
    wsNegotiate "websocket" "Upgrade" "13" "" ≠ .reject 400 ∧
    (wsNegotiate "websocket" "Upgrade" "13" "").status = 101 ∧
    (wsNegotiate "websocket" "Upgrade" "13" "").transfersStream = true := by
  refine ⟨?_, rfl, rfl⟩
  intro h
  have h2 : (HandshakeResult.reject 400).status = 101 := by
    rw [← h]
    rfl
  simp [HandshakeResult.status] at h2

/-- C1 (amended): if the upgrade indicator is not exactly "websocket" or
the connection indicator is not exactly "Upgrade" (case-sensitive), the
negotiator rejects with 400; else if the version token is not the
literal "13" it rejects with 400; otherwise — the client nonce is never
checked, even when absent — it accepts with status 101 and the computed
accept token. No rejection transfers stream ownership. -/
theorem wsNegotiate_spec :
    (∀ up conn ver key, (up ≠ "websocket" ∨ conn ≠ "Upgrade") →
      wsNegotiate up conn ver key = .reject 400) ∧
    (∀ ver key, ver ≠ "13" →
      wsNegotiate "websocket" "Upgrade" ver key = .reject 400) ∧
    (∀ key, wsNegotiate "websocket" "Upgrade" "13" key =
      .accept 101 (computeAccept key)) ∧
    (∀ st, (HandshakeResult.reject st).transfersStream = false) := by
  refine ⟨?_, ?_, ?_, fun st => rfl⟩
  · intro up conn ver key h
    unfold wsNegotiate
    rw [if_pos h]
  · intro ver key h
    unfold wsNegotiate
    rw [if_neg (by simp), if_pos h]
  · intro key
    unfold wsNegotiate
    rw [if_neg (by simp), if_neg (by simp)]

/-- Witness for C1 (amended): a wrong upgrade token, a missing version
header (empty string), and version "8" are each rejected with 400. -/
theorem wsNegotiate_spec_witness :
    wsNegotiate "foo" "Upgrade" "13" "k" = .reject 400 ∧
    wsNegotiate "websocket" "Upgrade" "" "k" = .reject 400 ∧
    wsNegotiate "websocket" "Upgrade" "8" "k" = .reject 400 :=
  ⟨wsNegotiate_spec.1 "foo" "Upgrade" "13" "k" (Or.inl (by decide)),
   wsNegotiate_spec.2.1 "" "k" (by decide),
   wsNegotiate_spec.2.1 "8" "k" (by decide)⟩

set_option maxRecDepth 10000

/-- C2: the accept token is a pure function of the client nonce, equal
to `base64(SHA1(nonce ++ magicGUID))`; on the RFC 6455 sample nonce it
equals the canonical test vector. -/
theorem computeAccept_spec :
    (∀ nonce : String, computeAccept nonce =
      String.mk (base64Encode (sha1Bytes (strBytes nonce ++ strBytes magicGUID)))) ∧
    computeAccept "dGhlIHNhbXBsZSBub25jZQ==" = "s3pPLMBiTxaQ9kYGzzhZRbK+xOo=" := by
  constructor
  · intro nonce
    unfold computeAccept strBytes
    rw [show (nonce ++ magicGUID).data = nonce.data ++ magicGUID.data from rfl,
      List.map_append]
  · decide

/-- Witness for C2 at the RFC sample nonce. -/
theorem computeAccept_spec_witness :
    computeAccept "dGhlIHNhbXBsZSBub25jZQ==" =
      String.mk (base64Encode (sha1Bytes
        (strBytes "dGhlIHNhbXBsZSBub25jZQ==" ++ strBytes magicGUID))) :=
  computeAccept_spec.1 "dGhlIHNhbXBsZSBub25jZQ=="
